import Mathlib

/-!
Shallow embedding of `src/type_decoder.c` from libsigrokdecode: the
output-dispatch core of the protocol-decoding engine.  The C file defines
three functions:

* `convert_pyobj` — validates a Python object of shape
  `[ann_format, [string, ...]]` into an annotation record;
* `Decoder_put`   — resolves an output handle and dispatches a data unit
  (annotation callback, protocol fan-out to successors, binary stub,
  unknown-type diagnostic);
* `Decoder_add`   — registers a new output stream via `pd_add`.

Python objects are modelled by the inductive `PyObj`; the CPython API
functions used by the C code (`PyList_Check`, `PyTuple_Check`,
`PyList_Size`, `PyList_GetItem`, `PyLong_Check`, `PyLong_AsLong`) are
modelled one-for-one so that their exact semantics — in particular that
`PyList_Size` on a non-list returns -1 — are visible in the embedding.
Side effects (`srd_err` logging, the annotation callback, the successor
`decode` calls) are recorded in an explicit event trace.
-/

/-- Model of a CPython object as it crosses the decoder boundary.
`pyOther` stands for any object of another type; the field is the
type name (`ob_type->tp_name`) used in diagnostics. -/
inductive PyObj where
  | pyNone
  | pyInt (n : Int)
  | pyStr (s : String)
  | pyList (items : List PyObj)
  | pyTuple (items : List PyObj)
  | pyOther (tyName : String)

namespace PyObj

/-- Model of `obj->ob_type->tp_name`. -/
def typeName : PyObj → String
  | .pyNone => "NoneType"
  | .pyInt _ => "int"
  | .pyStr _ => "str"
  | .pyList _ => "list"
  | .pyTuple _ => "tuple"
  | .pyOther s => s

end PyObj

/-- CPython `PyList_Check`. -/
def PyList_Check : PyObj → Bool
  | .pyList _ => true
  | _ => false

/-- CPython `PyTuple_Check`. -/
def PyTuple_Check : PyObj → Bool
  | .pyTuple _ => true
  | _ => false

/-- CPython `PyLong_Check`. -/
def PyLong_Check : PyObj → Bool
  | .pyInt _ => true
  | _ => false

/-- CPython `PyList_Size`: the length for a list, and -1 (with
`PyErr_BadInternalCall`) for anything else — including tuples. -/
def PyList_Size : PyObj → Int
  | .pyList items => items.length
  | _ => -1

/-- CPython `PyList_GetItem`: the item for an in-range index of a list,
NULL (here `none`) otherwise. -/
def PyList_GetItem : PyObj → Nat → Option PyObj
  | .pyList items, i => items[i]?
  | _, _ => none

/-- CPython `PyLong_AsLong` on an int object (the C code only calls it
after `PyLong_Check` has succeeded; overflow to C long is out of scope). -/
def PyLong_AsLong : PyObj → Int
  | .pyInt n => n
  | _ => -1

/-- GLib `g_slist_nth_data` / `g_slist_nth`: the C `int` index is
implicitly converted to `guint` (reduction modulo 2^32), and a position
past the end of the list yields NULL (`none`). -/
def g_slist_nth_data {α : Type} (l : List α) (n : Int) : Option α :=
  l[(n % (2 : Int) ^ 32).toNat]?

/-- Output stream types from `sigrokdecode.h`: `SRD_OUTPUT_ANN`,
`SRD_OUTPUT_PROTO`, `SRD_OUTPUT_BINARY`; `unknown` covers any other
value reaching the `default` arm of the switch in `Decoder_put`. -/
inductive OutputType where
  | ann
  | proto
  | binary
  | unknown (n : Int)
  deriving DecidableEq, Repr

/-- One registered output stream descriptor (`struct srd_pd_output`). -/
structure PdOutput where
  output_type : OutputType
  proto_id : String
  deriving DecidableEq, Repr

/-- A successor decoder instance, as reachable through `di->next_di`.
`decode_ok` records whether `PyObject_CallMethod(py_instance, "decode", ...)`
on this successor returns non-NULL. -/
structure NextDi where
  instance_id : String
  decode_ok : Bool
  deriving DecidableEq, Repr

/-- A decoder instance (`struct srd_decoder_instance`), restricted to the
fields `type_decoder.c` reads: `di->decoder->name`, the decoder's static
list of annotation formats (`di->decoder->annotations`, here
`ann_formats` — only membership by index matters), the registered output
streams `di->pd_output`, and the successor list `di->next_di`. -/
structure DecoderInstance where
  name : String
  ann_formats : List (List String)
  pd_output : List PdOutput
  next_di : List NextDi
  deriving DecidableEq, Repr

/-- The distinct diagnostics `convert_pyobj` can log before returning
`SRD_ERR_PYTHON`; each constructor corresponds to one `srd_err` call site
and carries the data interpolated into that message.  `getItemNull`
models `PyList_GetItem` returning NULL, which cannot happen on the paths
the C code reaches (the size check guarantees a 2-element list there). -/
inductive ConvErr where
  | notList (tyName : String)
  | wrongCount (n : Int)
  | firstNotInt
  | unregisteredFormat (ann_id : Int)
  | secondNotList
  | strlistMalformed
  | getItemNull
  deriving DecidableEq, Repr

/-- Modelled from the spec: `py_strlist_to_char` lives in the repository's
util sources, which are not part of the shown surface.  Per the spec,
each item of the list must be string-like and the conversion builds an
owned ordered sequence of the strings, failing if any item is not. -/
def strlist_to_strings : List PyObj → Option (List String)
  | [] => some []
  | .pyStr s :: rest => (strlist_to_strings rest).map (fun tl => s :: tl)
  | _ :: _ => none

/-- Modelled from the spec: `py_strlist_to_char` converts a Python list of
string-like items to a list of strings; a non-list or a non-string item
makes it fail (return a value other than `SRD_OK`). -/
def py_strlist_to_char : PyObj → Option (List String)
  | .pyList items => strlist_to_strings items
  | _ => none

/-- Embedding of `convert_pyobj` (src/type_decoder.c lines 25-77).
Returns the validated `(*ann_format, *ann)` pair on `SRD_OK`, or the
diagnostic logged before `SRD_ERR_PYTHON`.  The C code writes
`*ann_format` already after the format lookup; that out-parameter lands
in the transient `pdata` which is freed unread on failure, so only the
success value is observable and is what the embedding returns. -/
def convert_pyobj (di : DecoderInstance) (obj : PyObj) :
    Except ConvErr (Int × List String) :=
  if ¬ PyList_Check obj ∧ ¬ PyTuple_Check obj then
    .error (.notList obj.typeName)
  else if PyList_Size obj ≠ 2 then
    .error (.wrongCount (PyList_Size obj))
  else
    match PyList_GetItem obj 0 with
    | none => .error .getItemNull
    | some py0 =>
      if ¬ PyLong_Check py0 then
        .error .firstNotInt
      else
        let ann_id := PyLong_AsLong py0
        match g_slist_nth_data di.ann_formats ann_id with
        | none => .error (.unregisteredFormat ann_id)
        | some _ =>
          match PyList_GetItem obj 1 with
          | none => .error .getItemNull
          | some py1 =>
            if ¬ PyList_Check py1 then
              .error .secondNotList
            else
              match py_strlist_to_char py1 with
              | none => .error .strlistMalformed
              | some strs => .ok (ann_id, strs)

/-- Observable side effects of a `Decoder_put` call, in the order they
occur: an `srd_err` log line, an invocation of the registered annotation
callback (`cb(pdata)`) with the data the callback can read from `pdata`,
or an invocation of a successor's `decode` method with its arguments. -/
inductive Event where
  | log (msg : String)
  | annCallback (start_sample end_sample : Nat) (ann_format : Int)
      (strings : List String)
  | decodeCall (instance_id : String) (start_sample end_sample : Nat)
      (payload : PyObj)

/-- Whether an event is a successor `decode` invocation. -/
def isDecodeCall : Event → Bool
  | .decodeCall _ _ _ _ => true
  | _ => false

/-- Whether an event is an annotation-callback invocation. -/
def isAnnCallback : Event → Bool
  | .annCallback _ _ _ _ => true
  | _ => false

/-- The process-wide callback table consulted via `srd_find_callback`:
`Decoder_put` only looks up the Annotation output kind, so only that
slot's occupancy is modelled. -/
structure Env where
  ann_cb_registered : Bool

/-- The `srd_err` message of src/type_decoder.c line 97. -/
def invalidOutputIdMsg (name : String) (output_id : Int) : String :=
  "Protocol decoder " ++ name ++ " submitted invalid output ID " ++
    toString output_id ++ "."

/-- The `srd_err` messages logged by `convert_pyobj` before it returns
`SRD_ERR_PYTHON` (src/type_decoder.c lines 34, 41, 50, 57, 66, 71). -/
def convErrMsg (name : String) : ConvErr → String
  | .notList tyName =>
      "Protocol decoder " ++ name ++ " submitted " ++ tyName ++
        " instead of list."
  | .wrongCount n =>
      "Protocol decoder " ++ name ++ " submitted annotation list with " ++
        toString n ++ " elements instead of 2"
  | .firstNotInt =>
      "Protocol decoder " ++ name ++
        " submitted annotation list, but first element was not an integer."
  | .unregisteredFormat ann_id =>
      "Protocol decoder " ++ name ++
        " submitted data to unregistered annotation format " ++
        toString ann_id ++ "."
  | .secondNotList =>
      "Protocol decoder " ++ name ++
        " submitted annotation list, but second element was not a list."
  | .strlistMalformed =>
      "Protocol decoder " ++ name ++
        " submitted annotation list, but second element was malformed."
  | .getItemNull => "internal NULL from PyList_GetItem"

/-- The `catch_exception` message of src/type_decoder.c line 129. -/
def decodeFailMsg (instance_id : String) : String :=
  "calling " ++ instance_id ++ " decode(): "

/-- The `srd_err` message of src/type_decoder.c line 135. -/
def binaryNotSupportedMsg : String :=
  "SRD_OUTPUT_BINARY not yet supported."

/-- The `srd_err` message of src/type_decoder.c line 138. -/
def invalidOutputTypeMsg (name : String) (n : Int) : String :=
  "Protocol decoder " ++ name ++ " submitted invalid output type " ++
    toString n ++ "."

/-- The `switch (pdo->output_type)` block of `Decoder_put`
(src/type_decoder.c lines 109-141), acting on the transient data unit
`pdata` already carrying `start_sample`, `end_sample` and the resolved
descriptor `pdo`.  Returns the CPython result of the remainder of
`Decoder_put` (`some ()` for `Py_RETURN_NONE`), the instance (which the
C code never mutates) and the trace of observable effects.  In the C
code the conversion diagnostics are logged inside `convert_pyobj` before
the `break`; here the returned `ConvErr` is turned into the identical
log event at the same point of the trace. -/
def dispatch_unit (env : Env) (di : DecoderInstance)
    (start_sample end_sample : Nat) (data : PyObj) (pdo : PdOutput) :
    Option Unit × DecoderInstance × List Event :=
  match pdo.output_type with
  | .ann =>
    -- Annotations are only fed to callbacks.
    if env.ann_cb_registered then
      match convert_pyobj di data with
      | .error e => (some (), di, [.log (convErrMsg di.name e)])
      | .ok (ann_format, strs) =>
          (some (), di,
            [.annCallback start_sample end_sample ann_format strs])
    else
      (some (), di, [])
  | .proto =>
    (some (), di,
      (di.next_di.map (fun nd =>
        Event.decodeCall nd.instance_id start_sample end_sample data ::
          (if nd.decode_ok then []
           else [Event.log (decodeFailMsg nd.instance_id)]))).flatten)
  | .binary =>
    (some (), di, [.log binaryNotSupportedMsg])
  | .unknown n =>
    (some (), di, [.log (invalidOutputTypeMsg di.name n)])

/-- Embedding of `Decoder_put` (src/type_decoder.c lines 79-146), after
the boundary steps that recover `di` from `self` and parse
`(start_sample, end_sample, output_id, data)` out of `args` with format
"KKiO" (so `output_id` is a C `int`).  A `none` result models the C
function returning NULL, which CPython surfaces to the Python caller of
`put` as a raised exception; `some ()` models `Py_RETURN_NONE`.
Allocation failure of the transient `pdata` (`g_try_malloc0`) is out of
scope.  The returned instance threads the mutable state the C function
could have written through `di`. -/
def Decoder_put (env : Env) (di : DecoderInstance)
    (start_sample end_sample : Nat) (output_id : Int) (data : PyObj) :
    Option Unit × DecoderInstance × List Event :=
  match g_slist_nth_data di.pd_output output_id with
  | none =>
    (none, di, [.log (invalidOutputIdMsg di.name output_id)])
  | some pdo =>
    dispatch_unit env di start_sample end_sample data pdo

/-- Modelled from the spec: `pd_add` (the Output Registry, in repository
sources outside the shown surface) appends a new descriptor to the
instance's ordered output-stream list and returns its index as the
handle; when the registry declines a negative value is returned and no
stream is created.  The decline decision is left to registry discretion
and is passed in as `declined`. -/
def pd_add (di : DecoderInstance) (output_type : OutputType)
    (proto_id : String) (declined : Bool) : DecoderInstance × Int :=
  if declined then
    (di, -1)
  else
    ({ di with pd_output := di.pd_output ++ [⟨output_type, proto_id⟩] },
      di.pd_output.length)

/-- Embedding of `Decoder_add` (src/type_decoder.c lines 149-174), after
the boundary steps that recover `di` and parse `(output_type, proto_id)`
out of `args`.  Result `some .pyNone` models `Py_RETURN_NONE` (the
"no stream created" sentinel), `some (.pyInt h)` models
`Py_BuildValue("i", pdo_id)`; `none` would model returning NULL, which
this path never does once the boundary steps succeeded. -/
def Decoder_add (di : DecoderInstance) (output_type : OutputType)
    (proto_id : String) (declined : Bool) :
    Option PyObj × DecoderInstance :=
  let r := pd_add di output_type proto_id declined
  if r.2 < 0 then
    (some .pyNone, r.1)
  else
    (some (.pyInt r.2), r.1)

/-! Helper lemmas about the embedded library primitives. -/

/-- A nonnegative index below 2^31 survives the `int` → `guint`
conversion unchanged. -/
theorem emod_identity (n : Int) (h0 : 0 ≤ n) (h1 : n < 2 ^ 31) :
    n % (2 : Int) ^ 32 = n :=
  Int.emod_eq_of_lt h0 (lt_trans h1 (by norm_num))

/-- `g_slist_nth_data` at an index at or past the end of the list (below
the `int` ceiling 2^31) is NULL. -/
theorem g_slist_nth_data_eq_none {α : Type} (l : List α) (n : Int)
    (hlen : (l.length : Int) ≤ n) (hint : n < 2 ^ 31) :
    g_slist_nth_data l n = none := by
  have h0 : 0 ≤ n := le_trans (Int.ofNat_nonneg _) hlen
  unfold g_slist_nth_data
  rw [emod_identity n h0 hint]
  rw [List.getElem?_eq_none_iff]
  exact (Int.le_toNat h0).mpr hlen

/-- `g_slist_nth_data` at a natural index below 2^31 is a plain list
lookup. -/
theorem g_slist_nth_data_nat {α : Type} (l : List α) (n : Nat)
    (hint : n < 2 ^ 31) :
    g_slist_nth_data l (n : Int) = l[n]? := by
  unfold g_slist_nth_data
  rw [emod_identity (n : Int) (Int.ofNat_nonneg _) (by exact_mod_cast hint)]
  simp

/-- Converting a list made of string objects recovers exactly those
strings, in order. -/
theorem strlist_to_strings_of_strs (strs : List String) :
    strlist_to_strings (strs.map PyObj.pyStr) = some strs := by
  induction strs with
  | nil => rfl
  | cons s rest ih => simp [strlist_to_strings, ih]

/-- When the handle resolves, `Decoder_put` runs the switch on the
resolved descriptor. -/
theorem Decoder_put_resolved (env : Env) (di : DecoderInstance)
    (start_sample end_sample : Nat) (output_id : Int) (data : PyObj)
    (pdo : PdOutput)
    (h : g_slist_nth_data di.pd_output output_id = some pdo) :
    Decoder_put env di start_sample end_sample output_id data =
      dispatch_unit env di start_sample end_sample data pdo := by
  unfold Decoder_put
  rw [h]

/-- The decode-call events in a protocol fan-out trace are exactly one
per successor, in successor order, whatever the per-successor failure
flags are. -/
theorem filter_decode_trace (nds : List NextDi)
    (start_sample end_sample : Nat) (data : PyObj) :
    ((nds.map (fun nd =>
        Event.decodeCall nd.instance_id start_sample end_sample data ::
          (if nd.decode_ok then []
           else [Event.log (decodeFailMsg nd.instance_id)]))).flatten).filter
        isDecodeCall
      = nds.map (fun nd =>
          Event.decodeCall nd.instance_id start_sample end_sample data) := by
  induction nds with
  | nil => rfl
  | cons nd rest ih =>
    by_cases h : nd.decode_ok <;>
      simp [h, List.filter_append, isDecodeCall, ih, List.filter]

/-- C1 (counterexample): the claim states that an out-of-range output
handle in `put` is only logged and "not propagated as a fatal error to
the caller of put".  On the code, the invalid-handle branch of
`Decoder_put` does `return NULL` (src/type_decoder.c line 99), modelled
by the first component being `none`: CPython surfaces a NULL return as
an exception raised at the Python call site, so the failure IS
propagated to the caller of `put`.  Here is a concrete run (instance
with no registered output streams, handle 0) whose result is `none`. -/
theorem C1_counterexample :
    (Decoder_put ⟨true⟩ ⟨"dec", [], [], []⟩ 100 110 0 PyObj.pyNone).1
      = none := rfl

/-- C1 (amended): when `put` is called with an out-of-range output
handle, the failure is logged, no unit is dispatched and the instance
state is untouched — only this one emission is affected — but the error
IS surfaced to the immediate caller of `put` as a call failure (NULL
return / raised exception), unlike the malformed-annotation and binary
branches which return success. -/
theorem C1_invalid_handle_outcome (env : Env) (di : DecoderInstance)
    (start_sample end_sample : Nat) (output_id : Int) (data : PyObj)
    (hlen : (di.pd_output.length : Int) ≤ output_id)
    (hint : output_id < 2 ^ 31) :
    Decoder_put env di start_sample end_sample output_id data
      = (none, di, [.log (invalidOutputIdMsg di.name output_id)]) := by
  unfold Decoder_put
  rw [g_slist_nth_data_eq_none di.pd_output output_id hlen hint]

/-- Witness for C1 (amended) at a concrete out-of-range handle. -/
theorem C1_invalid_handle_outcome_witness :
    Decoder_put ⟨true⟩ ⟨"dec", [], [⟨.ann, "x"⟩], []⟩ 100 110 3 PyObj.pyNone
      = (none, ⟨"dec", [], [⟨.ann, "x"⟩], []⟩,
          [.log (invalidOutputIdMsg "dec" 3)]) :=
  C1_invalid_handle_outcome ⟨true⟩ ⟨"dec", [], [⟨.ann, "x"⟩], []⟩ 100 110 3
    PyObj.pyNone (by norm_num) (by norm_num)

/-- C6: for every instance and every handle at or beyond the number of
registered output streams, `put` fails (NULL result, after logging the
InvalidHandle diagnostic) and no annotation callback and no successor
decode call appears in the trace. -/
theorem C6_invalid_handle_no_dispatch (env : Env) (di : DecoderInstance)
    (start_sample end_sample : Nat) (output_id : Int) (data : PyObj)
    (hlen : (di.pd_output.length : Int) ≤ output_id)
    (hint : output_id < 2 ^ 31) :
    (Decoder_put env di start_sample end_sample output_id data).1 = none ∧
    ((Decoder_put env di start_sample end_sample output_id data).2.2).filter
        isAnnCallback = [] ∧
    ((Decoder_put env di start_sample end_sample output_id data).2.2).filter
        isDecodeCall = [] := by
  unfold Decoder_put
  rw [g_slist_nth_data_eq_none di.pd_output output_id hlen hint]
  exact ⟨rfl, rfl, rfl⟩

/-- Witness for C6 at a concrete instance with one stream and handle 1. -/
theorem C6_invalid_handle_no_dispatch_witness :
    (Decoder_put ⟨true⟩ ⟨"dec", [], [⟨.ann, "x"⟩], []⟩ 0 1 1 PyObj.pyNone).1
        = none ∧
    ((Decoder_put ⟨true⟩ ⟨"dec", [], [⟨.ann, "x"⟩], []⟩ 0 1 1
        PyObj.pyNone).2.2).filter isAnnCallback = [] ∧
    ((Decoder_put ⟨true⟩ ⟨"dec", [], [⟨.ann, "x"⟩], []⟩ 0 1 1
        PyObj.pyNone).2.2).filter isDecodeCall = [] :=
  C6_invalid_handle_no_dispatch ⟨true⟩ ⟨"dec", [], [⟨.ann, "x"⟩], []⟩ 0 1 1
    PyObj.pyNone (by norm_num) (by norm_num)

/-- C7: an Annotation-type emission made while no callback is registered
for the Annotation output kind produces an empty trace — the payload is
never validated, so no converter diagnostic can appear — and `put`
returns success with the instance unchanged.  The payload `data` is
arbitrary, malformed ones included. -/
theorem C7_no_callback_silent (env : Env) (di : DecoderInstance)
    (start_sample end_sample : Nat) (output_id : Int) (data : PyObj)
    (pid : String)
    (hres : g_slist_nth_data di.pd_output output_id = some ⟨.ann, pid⟩)
    (hcb : env.ann_cb_registered = false) :
    Decoder_put env di start_sample end_sample output_id data
      = (some (), di, []) := by
  rw [Decoder_put_resolved env di start_sample end_sample output_id data _ hres]
  unfold dispatch_unit
  simp [hcb]

/-- Witness for C7: no callback registered, malformed payload, success
and empty trace. -/
theorem C7_no_callback_silent_witness :
    Decoder_put ⟨false⟩ ⟨"dec", [], [⟨.ann, "x"⟩], []⟩ 0 1 0 (.pyInt 99)
      = (some (), ⟨"dec", [], [⟨.ann, "x"⟩], []⟩, []) :=
  C7_no_callback_silent ⟨false⟩ ⟨"dec", [], [⟨.ann, "x"⟩], []⟩ 0 1 0
    (.pyInt 99) "x" rfl rfl

/-- C8: a `put` on a Binary-type output stream logs the "not supported"
diagnostic, dispatches to no callback and no successor, and still
completes normally (`Py_RETURN_NONE`, modelled `some ()`), leaving the
instance unchanged. -/
theorem C8_binary_stub (env : Env) (di : DecoderInstance)
    (start_sample end_sample : Nat) (output_id : Int) (data : PyObj)
    (pid : String)
    (hres : g_slist_nth_data di.pd_output output_id = some ⟨.binary, pid⟩) :
    Decoder_put env di start_sample end_sample output_id data
      = (some (), di, [.log binaryNotSupportedMsg]) := by
  rw [Decoder_put_resolved env di start_sample end_sample output_id data _ hres]
  rfl

/-- Witness for C8 at a concrete Binary stream. -/
theorem C8_binary_stub_witness :
    Decoder_put ⟨true⟩ ⟨"dec", [], [⟨.binary, "x"⟩], []⟩ 5 6 0 (.pyStr "p")
      = (some (), ⟨"dec", [], [⟨.binary, "x"⟩], []⟩,
          [.log binaryNotSupportedMsg]) :=
  C8_binary_stub ⟨true⟩ ⟨"dec", [], [⟨.binary, "x"⟩], []⟩ 5 6 0
    (.pyStr "p") "x" rfl

/-- C10: every `put` call, in every branch — invalid handle, annotation
dispatch with or without callback, conversion failure, protocol fan-out,
binary stub, unknown output type — returns the instance with its
registered output streams and its successor list unchanged. -/
theorem C10_put_frame (env : Env) (di : DecoderInstance)
    (start_sample end_sample : Nat) (output_id : Int) (data : PyObj) :
    ((Decoder_put env di start_sample end_sample output_id data).2.1).pd_output
        = di.pd_output ∧
    ((Decoder_put env di start_sample end_sample output_id data).2.1).next_di
        = di.next_di := by
  have hdi :
      (Decoder_put env di start_sample end_sample output_id data).2.1 = di := by
    unfold Decoder_put dispatch_unit
    split
    · rfl
    · split
      · split
        · split <;> rfl
        · rfl
      · rfl
      · rfl
      · rfl
  rw [hdi]
  exact ⟨rfl, rfl⟩

/-- C3: a Protocol-type emission from an instance with N declared
successors invokes each successor's `decode` exactly once, in
declaration order, with identical `(start, end, payload)` arguments —
the decode-call events of the trace are exactly the successor list
mapped to one call each — and this holds for every assignment of
per-successor failure flags, so a failing successor k (whose failure is
logged via `catch_exception`) never prevents the invocation of
successors k+1..N; `put` itself still returns success. -/
theorem C3_proto_fanout (env : Env) (di : DecoderInstance)
    (start_sample end_sample : Nat) (output_id : Int) (data : PyObj)
    (pid : String)
    (hres : g_slist_nth_data di.pd_output output_id = some ⟨.proto, pid⟩) :
    (Decoder_put env di start_sample end_sample output_id data).1
        = some () ∧
    ((Decoder_put env di start_sample end_sample output_id
        data).2.2).filter isDecodeCall
      = di.next_di.map (fun nd =>
          Event.decodeCall nd.instance_id start_sample end_sample data) := by
  rw [Decoder_put_resolved env di start_sample end_sample output_id data _ hres]
  exact ⟨rfl, filter_decode_trace di.next_di start_sample end_sample data⟩

/-- Witness for C3: two successors, the first one failing; both decode
calls appear, in order, with the same arguments. -/
theorem C3_proto_fanout_witness :
    (Decoder_put ⟨true⟩
        ⟨"a", [], [⟨.proto, "x"⟩], [⟨"b", false⟩, ⟨"c", true⟩]⟩
        1 2 0 (.pyStr "p")).1 = some () ∧
    ((Decoder_put ⟨true⟩
        ⟨"a", [], [⟨.proto, "x"⟩], [⟨"b", false⟩, ⟨"c", true⟩]⟩
        1 2 0 (.pyStr "p")).2.2).filter isDecodeCall
      = [Event.decodeCall "b" 1 2 (.pyStr "p"),
         Event.decodeCall "c" 1 2 (.pyStr "p")] := by
  have h := C3_proto_fanout ⟨true⟩
    ⟨"a", [], [⟨.proto, "x"⟩], [⟨"b", false⟩, ⟨"c", true⟩]⟩
    1 2 0 (.pyStr "p") "x" rfl
  exact ⟨h.1, h.2.trans rfl⟩

/-- C5: for every valid pair `(fmt, [s1..sn])` with `fmt` indexing a
registered annotation format, `convert_pyobj` succeeds and returns
exactly that format id and exactly that string sequence (order and count
preserved); and a `put` of that payload on an Annotation stream with a
registered callback produces exactly one callback invocation carrying
the given start, end, format id and strings. -/
theorem C5_valid_annotation (env : Env) (di : DecoderInstance)
    (start_sample end_sample : Nat) (output_id : Int) (pid : String)
    (fmt : Nat) (strs : List String)
    (hres : g_slist_nth_data di.pd_output output_id = some ⟨.ann, pid⟩)
    (hcb : env.ann_cb_registered = true)
    (hfmt : fmt < di.ann_formats.length)
    (hint : fmt < 2 ^ 31) :
    convert_pyobj di (.pyList [.pyInt fmt, .pyList (strs.map .pyStr)])
      = .ok (fmt, strs) ∧
    Decoder_put env di start_sample end_sample output_id
        (.pyList [.pyInt fmt, .pyList (strs.map .pyStr)])
      = (some (), di,
          [.annCallback start_sample end_sample fmt strs]) := by
  have hlook : g_slist_nth_data di.ann_formats ((fmt : Int))
      = some di.ann_formats[fmt] := by
    rw [g_slist_nth_data_nat _ _ hint]
    exact List.getElem?_eq_getElem hfmt
  have hconv : convert_pyobj di
      (.pyList [.pyInt fmt, .pyList (strs.map .pyStr)])
        = .ok (fmt, strs) := by
    unfold convert_pyobj
    simp [PyList_Check, PyTuple_Check, PyList_Size, PyList_GetItem,
      PyLong_Check, PyLong_AsLong, hlook, py_strlist_to_char,
      strlist_to_strings_of_strs]
  refine ⟨hconv, ?_⟩
  rw [Decoder_put_resolved env di start_sample end_sample output_id _ _ hres]
  unfold dispatch_unit
  simp [hcb, hconv]

/-- Witness for C5: the spec scenario — format 0 registered, payload
`[0, ["1"]]`, emission over samples 100..110. -/
theorem C5_valid_annotation_witness :
    convert_pyobj ⟨"dec", [["bit"]], [⟨.ann, "x"⟩], []⟩
        (.pyList [.pyInt 0, .pyList (["1"].map .pyStr)])
      = .ok (0, ["1"]) ∧
    Decoder_put ⟨true⟩ ⟨"dec", [["bit"]], [⟨.ann, "x"⟩], []⟩ 100 110 0
        (.pyList [.pyInt 0, .pyList (["1"].map .pyStr)])
      = (some (), ⟨"dec", [["bit"]], [⟨.ann, "x"⟩], []⟩,
          [.annCallback 100 110 0 ["1"]]) :=
  C5_valid_annotation ⟨true⟩ ⟨"dec", [["bit"]], [⟨.ann, "x"⟩], []⟩ 100 110 0
    "x" 0 ["1"] rfl rfl (by norm_num) (by norm_num)

/-- C4 (counterexample): the claim attributes to every malformed
payload the diagnostic of its first failing check in the fixed order,
so a 2-element tuple whose first element is not an integer should be
rejected by the "first element not an integer" check.  On the code the
tuple never reaches that check: `PyList_Size` returns -1 for it, so the
element-count check fires instead, with "-1 elements instead of 2". -/
theorem C4_counterexample :
    convert_pyobj ⟨"dec", [["bit"]], [], []⟩
        (.pyTuple [.pyStr "a", .pyList [.pyStr "x"]])
      = .error (.wrongCount (-1)) ∧
    convert_pyobj ⟨"dec", [["bit"]], [], []⟩
        (.pyTuple [.pyStr "a", .pyList [.pyStr "x"]])
      ≠ .error .firstNotInt :=
  ⟨rfl, fun hc => ConvErr.noConfusion (Except.error.inj hc)⟩

/-- C4 (amended): for every payload that is not a sequence, and for
every malformed list payload, `convert_pyobj` fails with the diagnostic
of the first check that fails, the checks running in the fixed source
order — non-sequence, element count, integer first element, registered
format id, list second element, string-like inner items — with later
elements of the payload left completely unexamined (they are
universally quantified in each case); tuple payloads, although admitted
by the first check, are all rejected at the element-count check with
length -1 (`PyList_Size` on a tuple), regardless of which later check
they would actually violate; and on every conversion failure `put`
leaves the instance unchanged and produces nothing but that one log
line (no partial mutation, no callback). -/
theorem C4_malformed_rejection :
    (∀ (di : DecoderInstance) (obj : PyObj),
        PyList_Check obj = false → PyTuple_Check obj = false →
        convert_pyobj di obj = .error (.notList obj.typeName)) ∧
    (∀ (di : DecoderInstance) (items : List PyObj),
        convert_pyobj di (.pyTuple items)
          = .error (.wrongCount (-1))) ∧
    (∀ (di : DecoderInstance) (items : List PyObj),
        items.length ≠ 2 →
        convert_pyobj di (.pyList items)
          = .error (.wrongCount (items.length : Int))) ∧
    (∀ (di : DecoderInstance) (a b : PyObj),
        PyLong_Check a = false →
        convert_pyobj di (.pyList [a, b]) = .error .firstNotInt) ∧
    (∀ (di : DecoderInstance) (n : Int) (b : PyObj),
        g_slist_nth_data di.ann_formats n = none →
        convert_pyobj di (.pyList [.pyInt n, b])
          = .error (.unregisteredFormat n)) ∧
    (∀ (di : DecoderInstance) (n : Int) (b : PyObj),
        (g_slist_nth_data di.ann_formats n).isSome →
        PyList_Check b = false →
        convert_pyobj di (.pyList [.pyInt n, b])
          = .error .secondNotList) ∧
    (∀ (di : DecoderInstance) (n : Int) (items : List PyObj),
        (g_slist_nth_data di.ann_formats n).isSome →
        strlist_to_strings items = none →
        convert_pyobj di (.pyList [.pyInt n, .pyList items])
          = .error .strlistMalformed) ∧
    (∀ (env : Env) (di : DecoderInstance) (start_sample end_sample : Nat)
        (output_id : Int) (data : PyObj) (pid : String) (err : ConvErr),
        g_slist_nth_data di.pd_output output_id = some ⟨.ann, pid⟩ →
        env.ann_cb_registered = true →
        convert_pyobj di data = .error err →
        Decoder_put env di start_sample end_sample output_id data
          = (some (), di, [.log (convErrMsg di.name err)])) := by
  refine ⟨?_, ?_, ?_, ?_, ?_, ?_, ?_, ?_⟩
  · intro di obj h1 h2
    unfold convert_pyobj
    simp [h1, h2]
  · intro di items
    unfold convert_pyobj
    simp [PyList_Check, PyTuple_Check, PyList_Size]
  · intro di items h
    unfold convert_pyobj
    simp [PyList_Check, PyList_Size]
    omega
  · intro di a b h
    unfold convert_pyobj
    simp [PyList_Check, PyList_Size, PyList_GetItem, h]
  · intro di n b h
    unfold convert_pyobj
    simp [PyList_Check, PyList_Size, PyList_GetItem, PyLong_Check,
      PyLong_AsLong, h]
  · intro di n b hs h
    obtain ⟨f, hf⟩ := Option.isSome_iff_exists.mp hs
    cases b <;>
      simp_all [convert_pyobj, PyList_Check, PyTuple_Check, PyList_Size,
        PyList_GetItem, PyLong_Check, PyLong_AsLong, py_strlist_to_char]
  · intro di n items hs h
    obtain ⟨f, hf⟩ := Option.isSome_iff_exists.mp hs
    unfold convert_pyobj
    simp [PyList_Check, PyList_Size, PyList_GetItem, PyLong_Check,
      PyLong_AsLong, hf, py_strlist_to_char, h]
  · intro env di start_sample end_sample output_id data pid err hres hcb hc
    rw [Decoder_put_resolved env di start_sample end_sample output_id data
      _ hres]
    unfold dispatch_unit
    simp [hcb, hc]

/-- Witness for C4 (amended): one concrete rejected payload per shape
(non-sequence, tuple, wrong-count list, non-integer first element,
unregistered format id, non-list second element, non-string inner
item), and one `put` run whose only effect is the conversion log line. -/
theorem C4_malformed_rejection_witness :
    convert_pyobj ⟨"dec", [["bit"]], [], []⟩ (.pyInt 5)
        = .error (.notList "int") ∧
    convert_pyobj ⟨"dec", [["bit"]], [], []⟩
        (.pyTuple [.pyInt 0, .pyList [.pyStr "x"]])
        = .error (.wrongCount (-1)) ∧
    convert_pyobj ⟨"dec", [["bit"]], [], []⟩ (.pyList [.pyInt 0])
        = .error (.wrongCount 1) ∧
    convert_pyobj ⟨"dec", [["bit"]], [], []⟩
        (.pyList [.pyStr "a", .pyInt 0]) = .error .firstNotInt ∧
    convert_pyobj ⟨"dec", [["bit"]], [], []⟩
        (.pyList [.pyInt 5, .pyNone]) = .error (.unregisteredFormat 5) ∧
    convert_pyobj ⟨"dec", [["bit"]], [], []⟩
        (.pyList [.pyInt 0, .pyStr "x"]) = .error .secondNotList ∧
    convert_pyobj ⟨"dec", [["bit"]], [], []⟩
        (.pyList [.pyInt 0, .pyList [.pyInt 7]])
        = .error .strlistMalformed ∧
    Decoder_put ⟨true⟩ ⟨"dec", [["bit"]], [⟨.ann, "x"⟩], []⟩ 1 2 0 (.pyInt 5)
        = (some (), ⟨"dec", [["bit"]], [⟨.ann, "x"⟩], []⟩,
            [.log (convErrMsg "dec" (.notList "int"))]) := by
  have h := C4_malformed_rejection
  exact ⟨h.1 _ _ rfl rfl,
    h.2.1 _ _,
    h.2.2.1 _ _ (by norm_num),
    h.2.2.2.1 _ _ _ rfl,
    h.2.2.2.2.1 _ _ _ rfl,
    h.2.2.2.2.2.1 _ _ _ rfl rfl,
    h.2.2.2.2.2.2.1 _ _ _ rfl rfl,
    h.2.2.2.2.2.2.2 _ _ _ _ _ _ _ _ rfl rfl rfl⟩

/-- C2 (code-bug evaluation): the first check of `convert_pyobj`
explicitly admits tuples (`!PyList_Check(obj) && !PyTuple_Check(obj)`),
but the very next step calls `PyList_Size(obj)`, which returns -1 for a
tuple, so every tuple — including a well-formed 2-element one — is
rejected at the element-count check with the spurious diagnostic
"annotation list with -1 elements instead of 2", while the equivalent
list succeeds. -/
theorem C2_tuple_rejected_eval :
    convert_pyobj ⟨"dec", [["bit"]], [], []⟩
        (.pyTuple [.pyInt 0, .pyList [.pyStr "1"]])
      = .error (.wrongCount (-1)) ∧
    convert_pyobj ⟨"dec", [["bit"]], [], []⟩
        (.pyList [.pyInt 0, .pyList [.pyStr "1"]])
      = .ok (0, ["1"]) :=
  ⟨rfl, rfl⟩

/-- C9: once `Decoder_add`'s boundary parsing has succeeded, the call
never fails hard: when the registry accepts, the result is the new
handle (the index of the freshly appended descriptor, which afterwards
resolves to exactly that descriptor), and when the registry declines
(negative `pd_add` result) the result is the `None` sentinel — a normal
return, not an error. -/
theorem C9_add_sentinel (di : DecoderInstance) (output_type : OutputType)
    (proto_id : String) (declined : Bool)
    (hlen : di.pd_output.length < 2 ^ 31) :
    (Decoder_add di output_type proto_id declined).1 ≠ none ∧
    (declined = true →
      Decoder_add di output_type proto_id declined = (some .pyNone, di)) ∧
    (declined = false →
      (Decoder_add di output_type proto_id declined).1
          = some (.pyInt di.pd_output.length) ∧
      g_slist_nth_data
          ((Decoder_add di output_type proto_id declined).2.pd_output)
          (di.pd_output.length)
        = some ⟨output_type, proto_id⟩) := by
  cases declined with
  | true =>
    refine ⟨?_, fun _ => rfl, fun h => absurd h (by simp)⟩
    simp [Decoder_add, pd_add]
  | false =>
    have hD : Decoder_add di output_type proto_id false
        = (some (.pyInt di.pd_output.length),
            { di with
                pd_output := di.pd_output ++ [⟨output_type, proto_id⟩] }) := by
      unfold Decoder_add pd_add
      simp
    refine ⟨?_, fun h => absurd h (by simp), fun _ => ⟨?_, ?_⟩⟩
    · rw [hD]
      simp
    · rw [hD]
    · rw [hD]
      rw [g_slist_nth_data_nat _ _ hlen]
      simp

/-- Witness for C9 with the registry accepting: the handle of the first
stream is 0 and resolves back to the new descriptor. -/
theorem C9_add_sentinel_witness :
    (Decoder_add ⟨"dec", [], [], []⟩ .ann "x" false).1 ≠ none ∧
    (false = true →
      Decoder_add ⟨"dec", [], [], []⟩ .ann "x" false
        = (some .pyNone, ⟨"dec", [], [], []⟩)) ∧
    (false = false →
      (Decoder_add ⟨"dec", [], [], []⟩ .ann "x" false).1 = some (.pyInt 0) ∧
      g_slist_nth_data
          ((Decoder_add ⟨"dec", [], [], []⟩ .ann "x" false).2.pd_output) 0
        = some ⟨.ann, "x"⟩) :=
  C9_add_sentinel ⟨"dec", [], [], []⟩ .ann "x" false (by norm_num)
